import Mathlib

/-!
Shallow embedding of embassy-usb's mass-storage class skeleton
(src/embassy-usb/src/class/mass_storage.rs) and verification of the
specification's claims about it.

The control handler in the source is a stub: the bodies of
Control::reset, Control::control_out and Control::control_in are fully
commented out, so control_out and control_in return None for every
request and reset has no effect.  The embedding below reproduces that
behaviour faithfully.  The Bulk Transport State Machine described in
the spec is not present in the source at all; the part of it needed by
the CSW claims is modelled from the spec's words and marked as such.
-/

namespace MassStorage

/-- Request type field of a USB control request (embassy-usb control module). -/
inductive RequestType where
  | Standard
  | Class
  | Vendor
  | Reserved
deriving DecidableEq, Repr

/-- Recipient field of a USB control request (embassy-usb control module). -/
inductive Recipient where
  | Device
  | Interface
  | Endpoint
  | Other
deriving DecidableEq, Repr

/-- A USB control request, with the fields the mass-storage handler inspects.
Numeric fields are byte/word values, kept as Nat. -/
structure Request where
  request_type : RequestType
  recipient : Recipient
  request : Nat
  value : Nat
  index : Nat
  length : Nat
deriving DecidableEq, Repr

/-- Response of a control OUT handler (embassy-usb control module). -/
inductive OutResponse where
  | Accepted
  | Rejected
deriving DecidableEq, Repr

/-- Response of a control IN handler: Accepted carries the bytes written into
the response buffer. -/
inductive InResponse where
  | Accepted (data : List Nat)
  | Rejected
deriving DecidableEq, Repr

/-- Shared data between Control and MassStorageSCSIClass (struct ControlShared):
a waker registration and an AtomicBool changed flag.  The waker registration is
modelled as the identity of the registered waker plus a count of wake calls,
so that any mutation of the registration or any wake would be observable. -/
structure ControlShared where
  wakerRegistered : Option Nat
  wakeCount : Nat
  changed : Bool
deriving DecidableEq, Repr

/-- Default for ControlShared: fresh waker registration, changed = false. -/
def ControlShared.default : ControlShared :=
  { wakerRegistered := none, wakeCount := 0, changed := false }

/-- The control handler (struct Control): it stores the interface number it
owns; the reference to the shared state is passed explicitly to each method. -/
structure Control where
  ctrl_if_number : Nat
deriving DecidableEq, Repr

/-- Internal state (struct State): holds the shared control state; the
MaybeUninit Control slot is filled by MassStorageSCSIClass::new. -/
structure State where
  shared : ControlShared
deriving DecidableEq, Repr

/-- State::new: shared state is ControlShared::default(). -/
def State.new : State :=
  { shared := ControlShared.default }

/-- Handler::reset for Control: the body is entirely commented out in the
source, so the method leaves the shared state untouched. -/
def Control.reset (_self : Control) (s : ControlShared) : ControlShared :=
  s

/-- Handler::control_out for Control: the source body is the single expression
None (all dispatch logic is commented out), so every request yields no
response and the shared state is untouched. -/
def Control.control_out (_self : Control) (_req : Request) (_data : List Nat)
    (s : ControlShared) : Option OutResponse × ControlShared :=
  (none, s)

/-- Handler::control_in for Control: the source body is the single expression
None (all dispatch logic is commented out), so every request yields no
response and the shared state is untouched. -/
def Control.control_in (_self : Control) (_req : Request) (_buf : List Nat)
    (s : ControlShared) : Option InResponse × ControlShared :=
  (none, s)

/-- Mass storage interface class code constant USB_INTERFACE_CLASS. -/
def USB_INTERFACE_CLASS : Nat := 0x08

/-- SCSI transparent command set subclass constant USB_SUBCLASS_SCSI. -/
def USB_SUBCLASS_SCSI : Nat := 0x06

/-- Interface subclass constant USB_INTERFACE_SUBCLASS, defined in the source
as USB_SUBCLASS_SCSI. -/
def USB_INTERFACE_SUBCLASS : Nat := USB_SUBCLASS_SCSI

/-- Bulk-Only Transport protocol code constant USB_PROTOCOL_BULK_ONLY_TRANSPORT. -/
def USB_PROTOCOL_BULK_ONLY_TRANSPORT : Nat := 0x50

/-- Kind of an endpoint allocated through the builder. -/
inductive EndpointKind where
  | interruptIn
  | bulkOut
  | bulkIn
deriving DecidableEq, Repr

/-- One endpoint allocation: its kind, max packet size, and (for interrupt
endpoints) the polling interval. -/
structure EndpointAlloc where
  kind : EndpointKind
  max_packet_size : Nat
  interval : Option Nat
deriving DecidableEq, Repr

/-- Class/subclass/protocol triple passed to Builder::function. -/
structure FunctionDesc where
  classCode : Nat
  subclassCode : Nat
  protocolCode : Nat
deriving DecidableEq, Repr

/-- Class/subclass/protocol triple passed to InterfaceBuilder::alt_setting
(the optional fourth argument, a string index, is None in the source). -/
structure AltSettingDesc where
  classCode : Nat
  subclassCode : Nat
  protocolCode : Nat
deriving DecidableEq, Repr

/-- Record of everything MassStorageSCSIClass::new asks the builder for:
the function descriptor, the alternate-setting descriptor, the endpoint
allocations in order, and the interface number bound into the registered
control handler. -/
structure BuildRecord where
  functionDesc : FunctionDesc
  altSetting : AltSettingDesc
  endpoints : List EndpointAlloc
  handlerIfNumber : Nat
deriving DecidableEq, Repr

/-- The mass-storage class value returned by new: the interrupt endpoint and
the two bulk endpoints it stores. -/
structure MassStorageSCSIClass where
  _com_ep : EndpointAlloc
  read_ep : EndpointAlloc
  write_ep : EndpointAlloc
deriving DecidableEq, Repr

/-- MassStorageSCSIClass::new, traced against the source: it opens a function
with the three class-code constants, creates one interface (whose number the
builder assigns; it is a parameter here), one alternate setting with the same
three constants, allocates an interrupt IN endpoint (packet size 8, interval
255), a bulk OUT endpoint and a bulk IN endpoint both at max_packet_size,
registers the control handler with the interface number, and stores the
endpoints with read_ep = the bulk OUT and write_ep = the bulk IN. -/
def MassStorageSCSIClass.new (ctrl_if_number : Nat) (max_packet_size : Nat) :
    MassStorageSCSIClass × BuildRecord :=
  let comm_ep : EndpointAlloc :=
    { kind := EndpointKind.interruptIn, max_packet_size := 8, interval := some 255 }
  let read_ep : EndpointAlloc :=
    { kind := EndpointKind.bulkOut, max_packet_size := max_packet_size, interval := none }
  let write_ep : EndpointAlloc :=
    { kind := EndpointKind.bulkIn, max_packet_size := max_packet_size, interval := none }
  ({ _com_ep := comm_ep, read_ep := read_ep, write_ep := write_ep },
   { functionDesc :=
       { classCode := USB_INTERFACE_CLASS,
         subclassCode := USB_INTERFACE_SUBCLASS,
         protocolCode := USB_PROTOCOL_BULK_ONLY_TRANSPORT },
     altSetting :=
       { classCode := USB_INTERFACE_CLASS,
         subclassCode := USB_INTERFACE_SUBCLASS,
         protocolCode := USB_PROTOCOL_BULK_ONLY_TRANSPORT },
     endpoints := [comm_ep, read_ep, write_ep],
     handlerIfNumber := ctrl_if_number })

/-- Request code of the Bulk-Only Mass Storage Reset control request. -/
def REQ_MASS_STORAGE_RESET : Nat := 0xFF

/-- Request code of the Get Max LUN control request. -/
def REQ_GET_MAX_LUN : Nat := 0xFE

/-- Signature magic of a Command Block Wrapper. -/
def CBW_SIGNATURE : Nat := 0x43425355

/-- Signature magic of a Command Status Wrapper. -/
def CSW_SIGNATURE : Nat := 0x53425355

/-- Command Block Wrapper, the 31-byte command envelope: signature, tag,
data transfer length, flags (bit 7 = direction), LUN, command block length,
and the command block bytes. -/
structure CBW where
  signature : Nat
  tag : Nat
  dataTransferLength : Nat
  flags : Nat
  lun : Nat
  cbLength : Nat
  commandBlock : List Nat
deriving DecidableEq, Repr

/-- Command Status Wrapper, the 13-byte completion envelope: signature, tag,
data residue, status. -/
structure CSW where
  signature : Nat
  tag : Nat
  dataResidue : Nat
  status : Nat
deriving DecidableEq, Repr

/-- Validity of a CBW: signature matches the fixed BOT magic and the command
block length lies in [1, 16]. -/
def CBW.valid (c : CBW) : Bool :=
  c.signature == CBW_SIGNATURE && 1 ≤ c.cbLength && c.cbLength ≤ 16

/-- Modelled from the spec: the Bulk Transport State Machine is absent from
the source (only the endpoint-holding struct exists), so its handling of one
CBW is taken from the spec.  The executor is abstract: from the command block
it yields a pass/fail status and the number of data-stage bytes it produces
or consumes.  A valid CBW is executed; the transferred byte count is capped
at the declared transfer length, the remainder is the residue, and an
executor needing more bytes than declared yields a phase-error status 2.
The CSW carries the CSW magic and the retained CBW tag.  An invalid CBW
yields no CSW (the machine stalls). -/
def processCBW (exec : List Nat → Nat × Nat) (cbw : CBW) : Option CSW :=
  if cbw.valid then
    let r := exec cbw.commandBlock
    let transferred := min r.2 cbw.dataTransferLength
    let status := if r.2 > cbw.dataTransferLength then 2 else r.1
    some { signature := CSW_SIGNATURE, tag := cbw.tag,
           dataResidue := cbw.dataTransferLength - transferred, status := status }
  else
    none

/-- A Get Max LUN request addressed to interface number i with requested
length len. -/
def getMaxLunRequest (i : Nat) (len : Nat) : Request :=
  { request_type := RequestType.Class, recipient := Recipient.Interface,
    request := REQ_GET_MAX_LUN, value := 0, index := i, length := len }

/-- A Bulk-Only Mass Storage Reset request addressed to interface number i. -/
def massStorageResetRequest (i : Nat) : Request :=
  { request_type := RequestType.Class, recipient := Recipient.Interface,
    request := REQ_MASS_STORAGE_RESET, value := 0, index := i, length := 0 }

end MassStorage

namespace MassStorage

/-- C1: the spec claims Get Max LUN with requested length exactly 1 is
accepted with the byte 0 in the response buffer, and rejected otherwise.
The source's control_in returns None for every request, including a
well-formed Get Max LUN of length 1 addressed to the handler's own
interface, with the shared state untouched: the handler neither accepts
nor rejects, contradicting the documented intent (the source carries a
TODO to implement Reset and Get Max LUN). -/
theorem C1_get_max_lun_unimplemented :
    Control.control_in { ctrl_if_number := 0 } (getMaxLunRequest 0 1) [0]
        ControlShared.default
      = (none, ControlShared.default) := by
  rfl

/-- C2: the spec claims a Bulk-Only Mass Storage Reset OUT request to the
class's interface is accepted, sets the shared changed flag and wakes the
registered waker.  The source's control_out returns None for every request
and never touches the shared state: at a well-formed reset request the
response is none, changed stays false and no wake happens, contradicting
the documented intent (the source carries a TODO to implement Reset). -/
theorem C2_mass_storage_reset_unimplemented :
    Control.control_out { ctrl_if_number := 0 } (massStorageResetRequest 0) []
        ControlShared.default
      = (none, ControlShared.default)
    ∧ ControlShared.default.changed = false
    ∧ ControlShared.default.wakeCount = 0 := by
  exact ⟨rfl, rfl, rfl⟩

/-- C3: the spec claims any other request code addressed to this interface
(type Class, recipient Interface, matching index, code neither 0xFF nor
0xFE) is rejected.  The source returns None for every request: at request
code 0x12 addressed to the handler's own interface both control_out and
control_in produce no response instead of a rejection. -/
theorem C3_other_codes_not_rejected :
    Control.control_out { ctrl_if_number := 0 }
        { request_type := RequestType.Class, recipient := Recipient.Interface,
          request := 0x12, value := 0, index := 0, length := 0 } []
        ControlShared.default
      = (none, ControlShared.default)
    ∧ Control.control_in { ctrl_if_number := 0 }
        { request_type := RequestType.Class, recipient := Recipient.Interface,
          request := 0x12, value := 0, index := 0, length := 1 } [0]
        ControlShared.default
      = (none, ControlShared.default) := by
  exact ⟨rfl, rfl⟩

/-- C4: every control request whose (request type, recipient, index) is not
exactly (Class, Interface, this handler's interface number) is propagated:
both control_out and control_in return None and leave the shared state
unchanged.  This holds in the source, which returns None unconditionally. -/
theorem C4_mismatched_requests_propagated (c : Control) (req : Request)
    (data buf : List Nat) (s : ControlShared)
    (h : (req.request_type, req.recipient, req.index)
        ≠ (RequestType.Class, Recipient.Interface, c.ctrl_if_number)) :
    c.control_out req data s = (none, s) ∧ c.control_in req buf s = (none, s) := by
  exact ⟨rfl, rfl⟩

/-- C4 witness: a standard-type request aimed at the device is not owned by
the handler, and both handler methods propagate it. -/
theorem C4_witness :
    ((RequestType.Standard, Recipient.Device, (5 : Nat))
        ≠ (RequestType.Class, Recipient.Interface, (0 : Nat)))
    ∧ (Control.control_out { ctrl_if_number := 0 }
          { request_type := RequestType.Standard, recipient := Recipient.Device,
            request := 6, value := 0, index := 5, length := 0 } []
          ControlShared.default
        = (none, ControlShared.default)
      ∧ Control.control_in { ctrl_if_number := 0 }
          { request_type := RequestType.Standard, recipient := Recipient.Device,
            request := 6, value := 0, index := 5, length := 0 } []
          ControlShared.default
        = (none, ControlShared.default)) := by
  refine ⟨by decide, ?_⟩
  exact C4_mismatched_requests_propagated { ctrl_if_number := 0 }
    { request_type := RequestType.Standard, recipient := Recipient.Device,
      request := 6, value := 0, index := 5, length := 0 } [] []
    ControlShared.default (by decide)

/-- C5: the spec claims a bus-level device reset clears the shared control
state identically to a Mass Storage Reset, setting the changed flag and
waking the waiting task.  In the source the body of Control::reset is
entirely commented out (including the very store-and-wake lines the spec
describes): at a fresh shared state, reset leaves changed = false and the
wake count at 0, so the data path observes nothing. -/
theorem C5_reset_does_not_clear_state :
    Control.reset { ctrl_if_number := 0 } ControlShared.default
      = ControlShared.default
    ∧ (Control.reset { ctrl_if_number := 0 } ControlShared.default).changed = false
    ∧ (Control.reset { ctrl_if_number := 0 } ControlShared.default).wakeCount = 0 := by
  exact ⟨rfl, rfl, rfl⟩

/-- C6: the class-code constants equal 0x08, 0x06 and 0x50, and
MassStorageSCSIClass::new passes exactly this triple to both the function
descriptor and the alternate-setting descriptor, for every interface number
and max packet size. -/
theorem C6_class_codes (i mps : Nat) :
    USB_INTERFACE_CLASS = 0x08
    ∧ USB_INTERFACE_SUBCLASS = 0x06
    ∧ USB_PROTOCOL_BULK_ONLY_TRANSPORT = 0x50
    ∧ (MassStorageSCSIClass.new i mps).2.functionDesc
        = { classCode := 0x08, subclassCode := 0x06, protocolCode := 0x50 }
    ∧ (MassStorageSCSIClass.new i mps).2.altSetting
        = { classCode := 0x08, subclassCode := 0x06, protocolCode := 0x50 } := by
  exact ⟨rfl, rfl, rfl, rfl, rfl⟩

/-- C7: for every interface number and max packet size, new allocates
exactly one bulk OUT endpoint and exactly one bulk IN endpoint, both with
the caller-supplied max packet size, and stores them as the class's read
and write endpoints respectively. -/
theorem C7_bulk_endpoints (i mps : Nat) :
    ((MassStorageSCSIClass.new i mps).2.endpoints.filter
        (fun e => e.kind == EndpointKind.bulkOut))
      = [{ kind := EndpointKind.bulkOut, max_packet_size := mps, interval := none }]
    ∧ ((MassStorageSCSIClass.new i mps).2.endpoints.filter
        (fun e => e.kind == EndpointKind.bulkIn))
      = [{ kind := EndpointKind.bulkIn, max_packet_size := mps, interval := none }]
    ∧ (MassStorageSCSIClass.new i mps).1.read_ep
      = { kind := EndpointKind.bulkOut, max_packet_size := mps, interval := none }
    ∧ (MassStorageSCSIClass.new i mps).1.write_ep
      = { kind := EndpointKind.bulkIn, max_packet_size := mps, interval := none } := by
  exact ⟨rfl, rfl, rfl, rfl⟩

/-- C8: for every executor and every valid CBW the transport machine
completes, the resulting CSW carries the CBW's tag and a data residue not
exceeding the CBW's declared data transfer length.  Proved against the
spec-modelled transport step, the machine itself being absent from the
source. -/
theorem C8_csw_tag_and_residue (exec : List Nat → Nat × Nat) (cbw : CBW)
    (csw : CSW) (h : processCBW exec cbw = some csw) :
    csw.tag = cbw.tag ∧ csw.dataResidue ≤ cbw.dataTransferLength := by
  by_cases hv : cbw.valid = true
  · rw [processCBW, if_pos hv] at h
    cases h
    exact ⟨rfl, Nat.sub_le _ _⟩
  · rw [processCBW, if_neg hv] at h
    exact Option.noConfusion h

/-- C8 witness: a concrete valid CBW with tag 7 and declared length 64,
run against an executor producing 10 bytes with pass status, yields a CSW
whose tag is 7 and whose residue 54 is at most 64. -/
theorem C8_witness :
    (let cbw : CBW :=
      { signature := CBW_SIGNATURE, tag := 7, dataTransferLength := 64,
        flags := 0x80, lun := 0, cbLength := 6, commandBlock := [0x12, 0, 0, 0, 36, 0] }
     let csw : CSW :=
      { signature := CSW_SIGNATURE, tag := 7, dataResidue := 54, status := 0 }
     csw.tag = cbw.tag ∧ csw.dataResidue ≤ cbw.dataTransferLength) := by
  exact C8_csw_tag_and_residue (fun _ => (0, 10))
    { signature := CBW_SIGNATURE, tag := 7, dataTransferLength := 64,
      flags := 0x80, lun := 0, cbLength := 6, commandBlock := [0x12, 0, 0, 0, 36, 0] }
    { signature := CSW_SIGNATURE, tag := 7, dataResidue := 54, status := 0 }
    (by decide)

/-- C9: for every handler instance, request, payload, response buffer and
shared state, control_out and control_in both return None and leave the
shared state unchanged: the class never accepts or rejects any control
request, so every class-specific request falls through to the next
handler. -/
theorem C9_handlers_return_none (c : Control) (req : Request)
    (data buf : List Nat) (s : ControlShared) :
    c.control_out req data s = (none, s) ∧ c.control_in req buf s = (none, s) := by
  exact ⟨rfl, rfl⟩

/-- C10: State::new initialises the shared changed flag to false, and no
method of Control ever mutates the shared state: after reset, control_out
or control_in the shared state (changed flag, waker registration and wake
count) equals the starting state, so changed remains false forever. -/
theorem C10_shared_state_never_mutated (c : Control) (req : Request)
    (data buf : List Nat) (s : ControlShared) :
    State.new.shared.changed = false
    ∧ c.reset s = s
    ∧ (c.control_out req data s).2 = s
    ∧ (c.control_in req buf s).2 = s := by
  exact ⟨rfl, rfl, rfl, rfl⟩

end MassStorage
